import Mathlib

/-!
Shallow embedding of the Boba backend (src/main.py): the connection ledger,
the WebSocket connection manager, the match endpoint, the proximity and
user-detail endpoints, and the signup endpoint, together with theorems
settling the specification claims about them.

Conventions of the embedding:
* MongoDB collections are lists of documents; `find_one` is `List.find?`
  and `insert_one` appends.
* A live WebSocket is a `Channel`: `cid` identifies the transport handle,
  `broken` models a handle whose `send_text` raises an exception.
* Messages actually pushed through a channel are collected in a
  `List SentMsg` result.
* A handler that raises `HTTPException(s, d)` returns
  `Except.error (ApiError.httpError s d)`; an exception that escapes the
  handler uncaught (FastAPI turns it into a 500) is `ApiError.uncaught`.
-/

set_option autoImplicit false

namespace Boba

/-- A document of `connections_collection`: a directed edge from → to. -/
structure Edge where
  fro : String
  «to» : String
deriving DecidableEq, Repr

/-- A live WebSocket handle. `broken` models a transport whose
`send_text` raises. -/
structure Channel where
  cid : Nat
  broken : Bool
deriving DecidableEq, Repr

/-- A message delivered through a user identifier's live channel. -/
structure SentMsg where
  user : String
  msg : String
deriving DecidableEq, Repr

/-- The state of `ConnectionManager.active_connections`: a Python dict
from user identifier to WebSocket, as an association list with unique
keys in insertion order. -/
abbrev Manager := List (String × Channel)

/-- Errors a request handler can produce. -/
inductive ApiError where
  /-- An explicit `raise HTTPException(status_code, detail)`. -/
  | httpError (status : Nat) (detail : String)
  /-- An exception that escapes the handler uncaught. -/
  | uncaught
deriving DecidableEq, Repr

namespace ConnectionManager

/-- Python dict lookup `self.active_connections.get(user_id)`. -/
def lookup : Manager → String → Option Channel
  | [], _ => none
  | p :: rest, k => if p.1 == k then some p.2 else lookup rest k

/-- Python dict assignment `self.active_connections[user_id] = websocket`:
replaces the value of an existing key in place, otherwise appends. -/
def dictInsert : Manager → String → Channel → Manager
  | [], k, v => [(k, v)]
  | p :: rest, k, v => if p.1 == k then (k, v) :: rest else p :: dictInsert rest k v

/-- `ConnectionManager.connect` (src/main.py 47-49): accepts the transport
(an external effect not observable here) and installs the channel for the
identifier, replacing any previous mapping. -/
def connect (m : Manager) (user_id : String) (websocket : Channel) : Manager :=
  dictInsert m user_id websocket

/-- `ConnectionManager.disconnect` (src/main.py 51-52):
`self.active_connections.pop(user_id, None)`. -/
def disconnect (m : Manager) (user_id : String) : Manager :=
  m.filter (fun p => p.1 != user_id)

/-- `websocket.send_text message` on a channel: raises when the transport
is broken, otherwise delivers one message to the channel's owner `uid`. -/
def send_text (ws : Channel) (uid : String) (message : String) : Except Unit (List SentMsg) :=
  if ws.broken then .error () else .ok [⟨uid, message⟩]

/-- `ConnectionManager.send_personal_message` (src/main.py 54-57): look up
the identifier's channel; if none is registered do nothing, otherwise
push the message through it (which may raise). -/
def send_personal_message (m : Manager) (message : String) (user_id : String) :
    Except Unit (List SentMsg) :=
  match lookup m user_id with
  | some websocket => send_text websocket user_id message
  | none => .ok []

end ConnectionManager

/-- Request body of POST /connect. -/
structure ConnectRequest where
  from_user_id : String
  to_user_id : String
deriving DecidableEq, Repr

/-- Response body of POST /connect. -/
structure ConnectResp where
  message : String
  connected : Bool
deriving DecidableEq, Repr

/-- The match notification pushed to both parties (src/main.py 215-216). -/
def matchNotice : String := "üéâ You matched with someone!"

/-- The request notification pushed to the recipient (src/main.py 222). -/
def requestNotice : String := "Someone sent you a connection request!"

/-- The response message of a matching call (src/main.py 218). -/
def matchRespMessage : String := "It\x27s a match! üéâ"

/-- The response message of a non-matching call (src/main.py 224). -/
def waitRespMessage : String := "Connection request sent! Waiting for other user..."

/-- The existence-check-and-insert block of `send_connection_request`
(src/main.py 199-207), the ledger operation the spec calls
`requestConnection`: `find_one` the (from, to) edge and `insert_one` it
only when absent. Returns (alreadyExisted, updated collection). -/
def requestConnection (conns : List Edge) (fro «to» : String) : Bool × List Edge :=
  let existing := conns.find? (fun c => c.fro == fro && c.«to» == «to»)
  if existing.isSome then (true, conns)
  else (false, conns ++ [⟨fro, «to»⟩])

/-- `send_connection_request`, the POST /connect handler
(src/main.py 194-226). The returned `List Edge` is the state of
`connections_collection` after the call (the insert persists even when a
later `send_text` raises, since the database write happens first); the
`Except` is the handler's outcome. -/
def send_connection_request (req : ConnectRequest) (conns : List Edge) (mgr : Manager) :
    List Edge × Except ApiError (ConnectResp × List SentMsg) :=
  if req.from_user_id == req.to_user_id then
    (conns, .error (.httpError 400 "Cannot connect with yourself"))
  else
    let checked := requestConnection conns req.from_user_id req.to_user_id
    let conns2 := checked.2
    let reverse := conns2.find? (fun c => c.fro == req.to_user_id && c.«to» == req.from_user_id)
    if reverse.isSome then
      match ConnectionManager.send_personal_message mgr matchNotice req.from_user_id with
      | .error _ => (conns2, .error .uncaught)
      | .ok m1 =>
        match ConnectionManager.send_personal_message mgr matchNotice req.to_user_id with
        | .error _ => (conns2, .error .uncaught)
        | .ok m2 => (conns2, .ok ({ message := matchRespMessage, connected := true }, m1 ++ m2))
    else
      match ConnectionManager.send_personal_message mgr requestNotice req.to_user_id with
      | .error _ => (conns2, .error .uncaught)
      | .ok m1 => (conns2, .ok ({ message := waitRespMessage, connected := false }, m1))

/-- `get_mutual_connections`, the GET /connections/user_id handler
(src/main.py 228-239): collect the targets of all edges out of `user_id`
and keep those with a reverse edge back. -/
def get_mutual_connections (conns : List Edge) (user_id : String) : List String :=
  let sent := conns.filter (fun c => c.fro == user_id)
  let sent_ids := sent.map (fun c => c.«to»)
  sent_ids.filter (fun to_id => (conns.find? (fun c => c.fro == to_id && c.«to» == user_id)).isSome)

/-- Number of (fro, to) edges present in the ledger. -/
def countEdges (conns : List Edge) (fro «to» : String) : Nat :=
  (conns.filter (fun c => c.fro == fro && c.«to» == «to»)).length

/-- Number of match notifications delivered to `uid` in a sent-message log. -/
def matchCount (msgs : List SentMsg) (uid : String) : Nat :=
  (msgs.filter (fun m => m.user == uid && m.msg == matchNotice)).length

/-- A document of `users_collection`. Documents written by `signup` carry
every field; MongoDB is schemaless, so a document may lack the `location`
field, which `get_nearby_users` tests with `"location" not in user` —
absence is `none`, a stored GeoJSON point is `some (longitude, latitude)`. -/
structure UserDoc where
  oid : String
  username : String
  gmail : String
  password : String
  bio : String
  interests : String
  location : Option (Float × Float)
  longitude : Float
  latitude : Float

/-- Request body of POST /signup: the pydantic `User` model
(src/main.py 66-73), all seven fields required. -/
structure User where
  username : String
  gmail : String
  password : String
  bio : String
  interests : String
  latitude : Float
  longitude : Float

/-- A raw JSON request body for POST /signup, each field possibly absent. -/
structure RawSignup where
  username : Option String
  gmail : Option String
  password : Option String
  bio : Option String
  interests : Option String
  latitude : Option Float
  longitude : Option Float

/-- Pydantic validation of the `User` model (src/main.py 66-73): every
field is declared without a default and without `Optional`, so FastAPI
accepts the body only when all seven fields are present; otherwise it
rejects the request with a validation error and the handler never runs. -/
def validateUser (r : RawSignup) : Option User :=
  match r.username, r.gmail, r.password, r.bio, r.interests, r.latitude, r.longitude with
  | some u, some g, some p, some b, some i, some lat, some lon =>
      some ⟨u, g, p, b, i, lat, lon⟩
  | _, _, _, _, _, _, _ => none

/-- The fields of the POST /signup response body (src/main.py 114-123). -/
structure SignupResp where
  message : String
  oid : String
  username : String
  gmail : String
  bio : String
  interests : String
  longitude : Float
  latitude : Float

/-- `signup`, the POST /signup handler (src/main.py 90-123). `hashpw`
stands for the external `bcrypt.hashpw`; `fresh_id` for the ObjectId
MongoDB assigns to the inserted document. The stored document always
carries a `location` GeoJSON point built from the request's coordinates. -/
def signup (users : List UserDoc) (hashpw : String → String) (fresh_id : String)
    (user : User) : List UserDoc × Except ApiError SignupResp :=
  match users.find? (fun u => u.username == user.username) with
  | some _ => (users, .error (.httpError 400 "User already exists"))
  | none =>
    let new_user : UserDoc :=
      { oid := fresh_id
        username := user.username
        gmail := user.gmail
        password := hashpw user.password
        bio := user.bio
        interests := user.interests
        location := some (user.longitude, user.latitude)
        longitude := user.longitude
        latitude := user.latitude }
    (users ++ [new_user],
      .ok { message := "User registered successfully!"
            oid := fresh_id
            username := user.username
            gmail := user.gmail
            bio := user.bio
            interests := user.interests
            longitude := user.longitude
            latitude := user.latitude })

/-- The projection of a user document returned by the read endpoints
(src/main.py 167-175 and 184-192). -/
structure UserOut where
  oid : String
  username : String
  gmail : String
  bio : String
  interests : String
  longitude : Float
  latitude : Float

/-- Field projection shared by the loop of `get_nearby_users` and the
body of `get_user_details`. -/
def projectUser (u : UserDoc) : UserOut :=
  { oid := u.oid, username := u.username, gmail := u.gmail, bio := u.bio
    interests := u.interests, longitude := u.longitude, latitude := u.latitude }

/-- `get_nearby_users`, the GET /matches/user_id handler
(src/main.py 146-177). `find_one` the user; when the user is missing or
its document has no `location` field, raise 404 "User location not
available". Otherwise run the `$near` geospatial query — performed by
MongoDB's spatial index, modelled by the `near` parameter holding the
cursor the query returns for this user's point and `max_distance` — and
project every returned document except the querying user itself. -/
def get_nearby_users (users near : List UserDoc) (user_id : String) :
    Except ApiError (List UserOut) :=
  match users.find? (fun u => u.oid == user_id) with
  | none => .error (.httpError 404 "User location not available")
  | some user =>
    match user.location with
    | none => .error (.httpError 404 "User location not available")
    | some _ =>
      .ok ((near.filter (fun u => u.oid != user_id)).map projectUser)

/-- `get_user_details`, the GET /user/user_id handler
(src/main.py 179-192): 404 "User not found" when the identifier does not
resolve, otherwise the projected document. -/
def get_user_details (users : List UserDoc) (user_id : String) :
    Except ApiError UserOut :=
  match users.find? (fun u => u.oid == user_id) with
  | none => .error (.httpError 404 "User not found")
  | some user => .ok (projectUser user)

/-- An outcome of `await websocket.receive_text()` inside the endpoint
loop (src/main.py 250): a text frame, the `WebSocketDisconnect` raised
when the client disconnects, or another transport exception. -/
inductive RecvEvent where
  | text (s : String)
  | disconnected
  | failure
deriving DecidableEq, Repr

/-- The `while True` receive loop of `websocket_endpoint`
(src/main.py 248-255). Each iteration awaits a receive outcome; a text
frame is echoed through `send_personal_message`; any exception raised by
the receive or the echo — `WebSocketDisconnect` included, since it is a
subclass of `Exception` — is caught by the inner `except Exception`
handler, which breaks out of the loop without re-raising. Returns the
echoed messages. -/
def ws_receive_loop (mgr : Manager) (user_id : String) : List RecvEvent → List SentMsg
  | [] => []
  | RecvEvent.text s :: rest =>
    match ConnectionManager.send_personal_message mgr ("You said: " ++ s) user_id with
    | .ok ms => ms ++ ws_receive_loop mgr user_id rest
    | .error _ => []
  | RecvEvent.disconnected :: _ => []
  | RecvEvent.failure :: _ => []

/-- `websocket_endpoint`, the /ws/user_id handler (src/main.py 241-262).
`acceptOk` is whether `manager.connect`'s accept succeeds. On success the
channel is registered and the receive loop runs; because the inner
`except Exception` swallows every exception raised inside the loop, the
function then returns normally and the outer `except WebSocketDisconnect`
and `except Exception` clauses — the only places `manager.disconnect` is
called — never run. When accept itself raises, the outer handler runs
`manager.disconnect` before the channel was ever registered. Returns the
final manager state and the echoed messages. -/
def websocket_endpoint (mgr : Manager) (user_id : String) (websocket : Channel)
    (acceptOk : Bool) (events : List RecvEvent) : Manager × List SentMsg :=
  if acceptOk then
    let mgr2 := ConnectionManager.connect mgr user_id websocket
    (mgr2, ws_receive_loop mgr2 user_id events)
  else
    (ConnectionManager.disconnect mgr user_id, [])

/-- One request-handling task of POST /connect restricted to its two
database steps (src/main.py 199-207): `phase 0` = about to run the
`find_one` existence check, `phase 1` = check done with result
`sawExisting`, `phase 2` = the conditional `insert_one` done. -/
structure PendingReq where
  fro : String
  «to» : String
  phase : Nat
  sawExisting : Bool
deriving DecidableEq, Repr

/-- Run the next database step of one pending request against the shared
`connections_collection`: first the existence check, then the insert
when the check saw no edge. -/
def reqStep (conns : List Edge) (t : PendingReq) : List Edge × PendingReq :=
  if t.phase = 0 then
    (conns,
     { t with phase := 1
              sawExisting := (conns.find? (fun c => c.fro == t.fro && c.«to» == t.«to»)).isSome })
  else if t.phase = 1 then
    ((if t.sawExisting then conns else conns ++ [⟨t.fro, t.«to»⟩]), { t with phase := 2 })
  else (conns, t)

/-- Interleave the database steps of two concurrent POST /connect tasks
sharing one collection, as happens when two server workers handle the
same pair simultaneously: `false` schedules a step of the first task,
`true` a step of the second. -/
def runSchedule : List Bool → List Edge → PendingReq → PendingReq →
    List Edge × PendingReq × PendingReq
  | [], conns, t0, t1 => (conns, t0, t1)
  | pick :: rest, conns, t0, t1 =>
    if pick then
      let s := reqStep conns t1
      runSchedule rest s.1 t0 s.2
    else
      let s := reqStep conns t0
      runSchedule rest s.1 s.2 t1

/-! Helper lemmas about the ledger and the manager. -/

theorem edge_mem_iff (conns : List Edge) (f t : String) :
    Edge.mk f t ∈ conns ↔ ∃ c ∈ conns, c.fro = f ∧ c.«to» = t := by
  constructor
  · intro h
    exact ⟨_, h, rfl, rfl⟩
  · rintro ⟨⟨cf, ct⟩, hc, h1, h2⟩
    cases h1
    cases h2
    exact hc

theorem find?_edge_isSome (conns : List Edge) (f t : String) :
    (conns.find? (fun c => c.fro == f && c.«to» == t)).isSome = true ↔
      Edge.mk f t ∈ conns := by
  rw [List.find?_isSome, edge_mem_iff]
  constructor
  · rintro ⟨c, hc, hp⟩
    rw [Bool.and_eq_true, beq_iff_eq, beq_iff_eq] at hp
    exact ⟨c, hc, hp⟩
  · rintro ⟨c, hc, h1, h2⟩
    exact ⟨c, hc, by rw [Bool.and_eq_true, beq_iff_eq, beq_iff_eq]; exact ⟨h1, h2⟩⟩

theorem requestConnection_mem (conns : List Edge) (f t : String) :
    Edge.mk f t ∈ (requestConnection conns f t).2 := by
  unfold requestConnection
  by_cases h : (conns.find? (fun c => c.fro == f && c.«to» == t)).isSome = true
  · simp only [h, if_true]
    exact (find?_edge_isSome conns f t).mp h
  · simp only [h, if_false]
    exact List.mem_append_right _ (List.mem_singleton.mpr rfl)

theorem requestConnection_subset (conns : List Edge) (f t : String) :
    ∀ e ∈ conns, e ∈ (requestConnection conns f t).2 := by
  intro e he
  unfold requestConnection
  by_cases h : (conns.find? (fun c => c.fro == f && c.«to» == t)).isSome = true
  · simpa only [h, if_true]
  · simp only [h, if_false]
    exact List.mem_append_left _ he

theorem countEdges_zero_find?_eq_none (conns : List Edge) (f t : String)
    (h0 : countEdges conns f t = 0) :
    conns.find? (fun c => c.fro == f && c.«to» == t) = none := by
  rw [List.find?_eq_none]
  intro x hx
  unfold countEdges at h0
  rw [List.length_eq_zero, List.filter_eq_nil_iff] at h0
  exact h0 x hx

theorem lookup_dictInsert_self (m : Manager) (k : String) (v : Channel) :
    ConnectionManager.lookup (ConnectionManager.dictInsert m k v) k = some v := by
  induction m with
  | nil => simp [ConnectionManager.dictInsert, ConnectionManager.lookup]
  | cons p rest ih =>
    by_cases h : (p.1 == k) = true
    · simp [ConnectionManager.dictInsert, ConnectionManager.lookup, h]
    · simp [ConnectionManager.dictInsert, ConnectionManager.lookup, h, ih]

theorem keys_dictInsert (m : Manager) (k : String) (v : Channel) :
    (ConnectionManager.dictInsert m k v).map Prod.fst =
      if m.any (fun p => p.1 == k) then m.map Prod.fst else m.map Prod.fst ++ [k] := by
  induction m with
  | nil => simp [ConnectionManager.dictInsert]
  | cons p rest ih =>
    cases hP : p.1 == k with
    | true =>
      rw [beq_iff_eq] at hP
      simp [ConnectionManager.dictInsert, List.any_cons, hP]
    | false =>
      simp only [ConnectionManager.dictInsert, hP, Bool.false_eq_true, if_false,
        List.map_cons, List.any_cons, Bool.false_or]
      rw [ih]
      by_cases h2 : rest.any (fun p => p.1 == k) = true
      · simp [h2]
      · simp [h2]

theorem send_connection_request_fst (req : ConnectRequest) (conns : List Edge)
    (mgr : Manager) (h : req.from_user_id ≠ req.to_user_id) :
    (send_connection_request req conns mgr).1 =
      (requestConnection conns req.from_user_id req.to_user_id).2 := by
  have hb : (req.from_user_id == req.to_user_id) = false := beq_eq_false_iff_ne.mpr h
  unfold send_connection_request
  simp only [hb, Bool.false_eq_true, if_false]
  split
  · split <;> (try split) <;> rfl
  · split <;> rfl

/-! Claim theorems. -/

/-- C5: for every user identifier A, `send_connection_request` with
from = to = A fails with the self-connection rejection
(HTTP 400 "Cannot connect with yourself") and leaves the connection
ledger unchanged — no edge is produced by the failing call. -/
theorem c5_self_connection_rejected (A : String) (conns : List Edge) (mgr : Manager) :
    send_connection_request ⟨A, A⟩ conns mgr =
      (conns, .error (.httpError 400 "Cannot connect with yourself")) := by
  unfold send_connection_request
  simp

/-- C4 (exhibit of the failing input): the existence check and the insert
of `send_connection_request` are two separable database operations. On
the interleaving check₀, check₁, insert₀, insert₁ of two concurrent
requests for the same pair ("u1","u2") against an empty ledger, both
checks see no edge and both inserts run, leaving two ("u1","u2") edges —
while the serial schedule of the very same two requests leaves one. -/
theorem c4_check_insert_race :
    countEdges (runSchedule [false, true, false, true] []
        ⟨"u1", "u2", 0, false⟩ ⟨"u1", "u2", 0, false⟩).1 "u1" "u2" = 2
    ∧ countEdges (runSchedule [false, false, true, true] []
        ⟨"u1", "u2", 0, false⟩ ⟨"u1", "u2", 0, false⟩).1 "u1" "u2" = 1 :=
  ⟨rfl, rfl⟩

/-- C9 (exhibit of the failing input): when the client of user "u"
disconnects (the receive raises `WebSocketDisconnect`), the inner
`except Exception` of `websocket_endpoint` catches it and breaks out of
the loop, so `manager.disconnect` never runs: the registry still maps
"u" to the stale channel and a later send is routed to that stale
handle. -/
theorem c9_stale_channel_after_disconnect :
    ConnectionManager.lookup
        (websocket_endpoint [] "u" ⟨7, false⟩ true [RecvEvent.disconnected]).1 "u" =
      some ⟨7, false⟩
    ∧ ConnectionManager.send_personal_message
        (websocket_endpoint [] "u" ⟨7, false⟩ true [RecvEvent.disconnected]).1 "hello" "u" =
      .ok [⟨"u", "hello"⟩] :=
  ⟨rfl, rfl⟩

/-- C3 (counterexample): a recipient whose channel raises on write is
surfaced to the caller — with user "b" registered on a broken channel,
the call from "a" to "b" ends in an uncaught exception (an HTTP 500 for
the caller), even though the ("a","b") edge write itself succeeded. -/
theorem c3_broken_channel_surfaces :
    (send_connection_request ⟨"a", "b"⟩ [] [("b", ⟨0, true⟩)]).2 = .error .uncaught
    ∧ Edge.mk "a" "b" ∈ (send_connection_request ⟨"a", "b"⟩ [] [("b", ⟨0, true⟩)]).1 :=
  ⟨rfl, List.mem_singleton.mpr rfl⟩

/-- C6 (counterexample): `get_nearby_users` on an identifier that
resolves to no record raises the very same
404 "User location not available" failure as the missing-coordinates
case, not the distinct 404 "User not found" failure that
`get_user_details` raises for an unresolvable identifier. -/
theorem c6_notfound_conflated :
    get_nearby_users [] [] "x" = .error (.httpError 404 "User location not available")
    ∧ get_user_details [] "x" = .error (.httpError 404 "User not found")
    ∧ "User location not available" ≠ "User not found" :=
  ⟨rfl, rfl, by decide⟩

/-- C10 (counterexample): the public user-creation interface does not
admit a user without coordinates — a signup body missing latitude and
longitude fails the `User` model's validation and no record is created,
and every record `signup` does insert carries a location point. -/
theorem c10_no_absent_coordinates :
    validateUser ⟨some "u", some "g", some "p", some "b", some "i", none, none⟩ = none
    ∧ ((signup [] (fun s => s) "id1"
          ⟨"u", "g", "p", "b", "i", 0, 0⟩).1.all (fun d => d.location.isSome)) = true :=
  ⟨rfl, rfl⟩

/-- C1: for distinct users A and B with the edge (A,B) already in the
ledger, the call from B to A reports connected = true, and — both being
registered live on working channels — each of A and B receives exactly
one match notification from this call. -/
theorem c1_reverse_request_matches (conns : List Edge) (mgr : Manager) (A B : String)
    (wsA wsB : Channel) (hAB : A ≠ B) (hedge : Edge.mk A B ∈ conns)
    (hA : ConnectionManager.lookup mgr A = some wsA) (hAok : wsA.broken = false)
    (hB : ConnectionManager.lookup mgr B = some wsB) (hBok : wsB.broken = false) :
    ∃ msgs,
      (send_connection_request ⟨B, A⟩ conns mgr).2 =
        .ok ({ message := matchRespMessage, connected := true }, msgs)
      ∧ matchCount msgs A = 1 ∧ matchCount msgs B = 1 := by
  have hb : (B == A) = false := beq_eq_false_iff_ne.mpr (Ne.symm hAB)
  have hb2 : (A == B) = false := beq_eq_false_iff_ne.mpr hAB
  have hrev : (((requestConnection conns B A).2).find?
      (fun c => c.fro == A && c.«to» == B)).isSome = true :=
    (find?_edge_isSome _ A B).mpr (requestConnection_subset conns B A _ hedge)
  refine ⟨[⟨B, matchNotice⟩, ⟨A, matchNotice⟩], ?_, ?_, ?_⟩
  · simp [send_connection_request, ConnectionManager.send_personal_message,
      ConnectionManager.send_text, hb, hrev, hA, hB, hAok, hBok]
  · simp [matchCount, hb]
  · simp [matchCount, hb2]

/-- Witness for C1 at a concrete ledger and registry. -/
theorem c1_reverse_request_matches_witness :
    ∃ msgs,
      (send_connection_request ⟨"b", "a"⟩ [⟨"a", "b"⟩]
          [("a", ⟨0, false⟩), ("b", ⟨1, false⟩)]).2 =
        .ok ({ message := matchRespMessage, connected := true }, msgs)
      ∧ matchCount msgs "a" = 1 ∧ matchCount msgs "b" = 1 :=
  c1_reverse_request_matches [⟨"a", "b"⟩] [("a", ⟨0, false⟩), ("b", ⟨1, false⟩)]
    "a" "b" ⟨0, false⟩ ⟨1, false⟩ (by decide) (List.mem_singleton.mpr rfl)
    rfl rfl rfl rfl

/-- C2: for distinct users A and B with no (A,B) edge in the ledger, the
first check-and-insert reports alreadyExisted = false, the immediately
repeated one reports alreadyExisted = true and writes nothing, and the
ledger ends up holding exactly one (A,B) edge. -/
theorem c2_duplicate_request_noop (conns : List Edge) (A B : String) (hAB : A ≠ B)
    (h0 : countEdges conns A B = 0) :
    (requestConnection conns A B).1 = false
    ∧ (requestConnection (requestConnection conns A B).2 A B).1 = true
    ∧ (requestConnection (requestConnection conns A B).2 A B).2 =
        (requestConnection conns A B).2
    ∧ countEdges (requestConnection (requestConnection conns A B).2 A B).2 A B = 1 := by
  have hfind := countEdges_zero_find?_eq_none conns A B h0
  have h1 : requestConnection conns A B = (false, conns ++ [⟨A, B⟩]) := by
    unfold requestConnection
    simp [hfind]
  have hmem : Edge.mk A B ∈ conns ++ [Edge.mk A B] :=
    List.mem_append_right _ (List.mem_singleton.mpr rfl)
  have h2s : ((conns ++ [Edge.mk A B]).find?
      (fun c => c.fro == A && c.«to» == B)).isSome = true :=
    (find?_edge_isSome _ A B).mpr hmem
  have h2 : requestConnection (conns ++ [Edge.mk A B]) A B =
      (true, conns ++ [Edge.mk A B]) := by
    unfold requestConnection
    simp [h2s]
  have hcount : countEdges (conns ++ [Edge.mk A B]) A B = 1 := by
    unfold countEdges
    rw [List.filter_append, List.length_append]
    have hz : (conns.filter (fun c => c.fro == A && c.«to» == B)).length = 0 := h0
    rw [hz]
    simp
  refine ⟨by rw [h1], ?_, ?_, ?_⟩
  · rw [h1]
    show (requestConnection (conns ++ [Edge.mk A B]) A B).1 = true
    rw [h2]
  · rw [h1]
    show (requestConnection (conns ++ [Edge.mk A B]) A B).2 = (false, conns ++ [Edge.mk A B]).2
    rw [h2]
  · rw [h1]
    show countEdges (requestConnection (conns ++ [Edge.mk A B]) A B).2 A B = 1
    rw [h2]
    exact hcount

/-- Witness for C2 starting from the empty ledger. -/
theorem c2_duplicate_request_noop_witness :
    (requestConnection [] "a" "b").1 = false
    ∧ (requestConnection (requestConnection [] "a" "b").2 "a" "b").1 = true
    ∧ (requestConnection (requestConnection [] "a" "b").2 "a" "b").2 =
        (requestConnection [] "a" "b").2
    ∧ countEdges (requestConnection (requestConnection [] "a" "b").2 "a" "b").2 "a" "b" = 1 :=
  c2_duplicate_request_noop [] "a" "b" (by decide) rfl

/-- C3 (amended): the (A,B) edge write succeeds independently of
delivery — the edge is in the ledger returned by the call whatever the
notification outcome — and when neither party is registered live the
best-effort pushes are silent no-ops, so the call reports success.
(A registered channel that raises on write, by contrast, escapes the
handler: see the counterexample.) -/
theorem c3_edge_write_independent (conns : List Edge) (mgr : Manager) (A B : String)
    (hAB : A ≠ B) :
    Edge.mk A B ∈ (send_connection_request ⟨A, B⟩ conns mgr).1
    ∧ (ConnectionManager.lookup mgr A = none → ConnectionManager.lookup mgr B = none →
        ((send_connection_request ⟨A, B⟩ conns mgr).2).isOk = true) := by
  constructor
  · rw [send_connection_request_fst ⟨A, B⟩ conns mgr hAB]
    exact requestConnection_mem conns A B
  · intro hA hB
    have hb : (A == B) = false := beq_eq_false_iff_ne.mpr hAB
    simp only [send_connection_request, ConnectionManager.send_personal_message,
      hA, hB, hb, Bool.false_eq_true, if_false]
    split <;> rfl

/-- Witness for C3 (amended) with both parties offline. -/
theorem c3_edge_write_independent_witness :
    Edge.mk "a" "b" ∈ (send_connection_request ⟨"a", "b"⟩ [] []).1
    ∧ (ConnectionManager.lookup [] "a" = none → ConnectionManager.lookup [] "b" = none →
        ((send_connection_request ⟨"a", "b"⟩ [] []).2).isOk = true) :=
  c3_edge_write_independent [] [] "a" "b" (by decide)

/-- C6 (amended): `get_nearby_users` fails with
404 "User location not available" on a user that exists but has no
location; an identifier that resolves to no record gets the very same
failure from this endpoint, not a distinct not-found one. -/
theorem c6_location_unavailable (users near : List UserDoc) (uid : String) :
    (∀ v, users.find? (fun u => u.oid == uid) = some v → v.location = none →
        get_nearby_users users near uid =
          .error (.httpError 404 "User location not available"))
    ∧ (users.find? (fun u => u.oid == uid) = none →
        get_nearby_users users near uid =
          .error (.httpError 404 "User location not available")) := by
  constructor
  · intro v hfind hloc
    simp [get_nearby_users, hfind, hloc]
  · intro hfind
    simp [get_nearby_users, hfind]

/-- Witness for C6 (amended) on a stored record with no location. -/
theorem c6_location_unavailable_witness :
    get_nearby_users [⟨"x", "n", "g", "p", "b", "i", none, 0, 0⟩] [] "x" =
      .error (.httpError 404 "User location not available") :=
  (c6_location_unavailable [⟨"x", "n", "g", "p", "b", "i", none, 0, 0⟩] [] "x").1
    ⟨"x", "n", "g", "p", "b", "i", none, 0, 0⟩ rfl rfl

/-- C7: `get_mutual_connections` contains x exactly when both the
(id,x) and the (x,id) edges are in the ledger, and membership is
therefore symmetric between the two users. -/
theorem c7_mutuals_symmetric (conns : List Edge) (uid x : String) :
    (x ∈ get_mutual_connections conns uid ↔
        Edge.mk uid x ∈ conns ∧ Edge.mk x uid ∈ conns)
    ∧ (x ∈ get_mutual_connections conns uid ↔ uid ∈ get_mutual_connections conns x) := by
  have key : ∀ id y : String, y ∈ get_mutual_connections conns id ↔
      Edge.mk id y ∈ conns ∧ Edge.mk y id ∈ conns := by
    intro id y
    simp only [get_mutual_connections, List.mem_filter, List.mem_map]
    constructor
    · rintro ⟨⟨c, hc, hct⟩, hq⟩
      refine ⟨?_, (find?_edge_isSome conns y id).mp hq⟩
      rw [edge_mem_iff]
      exact ⟨c, hc.1, beq_iff_eq.mp hc.2, hct⟩
    · rintro ⟨h1, h2⟩
      exact ⟨⟨Edge.mk id y, ⟨h1, by simp⟩, rfl⟩, (find?_edge_isSome conns y id).mpr h2⟩
  refine ⟨key uid x, ?_⟩
  rw [key uid x, key x uid]
  exact and_comm

/-- C8: registering a channel for an identifier replaces any previous
mapping: the lookup afterwards yields the new channel, a subsequent send
for that identifier goes only through the new channel, and uniqueness of
the identifier-to-channel mapping is preserved. -/
theorem c8_replacement_registration (m : Manager) (uid : String) (ws : Channel)
    (msg : String) (hnd : (m.map Prod.fst).Nodup) :
    ConnectionManager.lookup (ConnectionManager.connect m uid ws) uid = some ws
    ∧ ConnectionManager.send_personal_message (ConnectionManager.connect m uid ws) msg uid =
        (if ws.broken = true then .error () else .ok [⟨uid, msg⟩])
    ∧ ((ConnectionManager.connect m uid ws).map Prod.fst).Nodup := by
  refine ⟨lookup_dictInsert_self m uid ws, ?_, ?_⟩
  · unfold ConnectionManager.send_personal_message
    rw [show ConnectionManager.connect m uid ws = ConnectionManager.dictInsert m uid ws
      from rfl, lookup_dictInsert_self]
    rfl
  · rw [show ConnectionManager.connect m uid ws = ConnectionManager.dictInsert m uid ws
      from rfl, keys_dictInsert]
    by_cases hany : m.any (fun p => p.1 == uid) = true
    · rw [if_pos hany]
      exact hnd
    · rw [if_neg hany, List.nodup_append]
      refine ⟨hnd, List.nodup_singleton _, ?_⟩
      intro a ha hb2
      rw [List.mem_singleton] at hb2
      subst hb2
      rw [List.mem_map] at ha
      obtain ⟨p, hp, hpe⟩ := ha
      exact hany (List.any_eq_true.mpr ⟨p, hp, by rw [beq_iff_eq]; exact hpe⟩)

/-- Witness for C8 replacing an existing registration. -/
theorem c8_replacement_registration_witness :
    ConnectionManager.lookup (ConnectionManager.connect [("u", ⟨0, false⟩)] "u" ⟨1, false⟩) "u" =
      some ⟨1, false⟩
    ∧ ConnectionManager.send_personal_message
        (ConnectionManager.connect [("u", ⟨0, false⟩)] "u" ⟨1, false⟩) "m" "u" =
        (if (Channel.mk 1 false).broken = true then .error () else .ok [⟨"u", "m"⟩])
    ∧ ((ConnectionManager.connect [("u", ⟨0, false⟩)] "u" ⟨1, false⟩).map Prod.fst).Nodup :=
  c8_replacement_registration [("u", ⟨0, false⟩)] "u" ⟨1, false⟩ "m" (by decide)

/-- C10 (amended): the stored record schema represents absent
coordinates (the `location` field may be missing, and only then), but
the public creation interface does not admit them: a body missing a
coordinate fails the `User` model validation, and every record `signup`
inserts carries a location point built from the request's coordinates. -/
theorem c10_signup_requires_coordinates (users : List UserDoc) (hashpw : String → String)
    (fid : String) (u : User) (r : RawSignup)
    (hr : r.latitude = none ∨ r.longitude = none) :
    validateUser r = none
    ∧ (∀ d ∈ (signup users hashpw fid u).1, d ∈ users ∨ d.location.isSome = true) := by
  constructor
  · obtain ⟨ru, rg, rp, rb, ri, rlat, rlon⟩ := r
    simp only at hr
    rcases hr with h | h
    · subst h
      cases ru <;> cases rg <;> cases rp <;> cases rb <;> cases ri <;> cases rlon <;> rfl
    · subst h
      cases ru <;> cases rg <;> cases rp <;> cases rb <;> cases ri <;> cases rlat <;> rfl
  · intro d hd
    cases hfind : users.find? (fun x => x.username == u.username) with
    | some w =>
      left
      simpa [signup, hfind] using hd
    | none =>
      simp only [signup, hfind] at hd
      rw [List.mem_append] at hd
      rcases hd with hd | hd
      · exact Or.inl hd
      · right
        rw [List.mem_singleton] at hd
        subst hd
        rfl

/-- Witness for C10 (amended) on a body missing its latitude. -/
theorem c10_signup_requires_coordinates_witness :
    validateUser ⟨some "u", some "g", some "p", some "b", some "i", none, some 0⟩ = none
    ∧ (∀ d ∈ (signup [] (fun s => s) "id1" ⟨"u", "g", "p", "b", "i", 0, 0⟩).1,
        d ∈ ([] : List UserDoc) ∨ d.location.isSome = true) :=
  c10_signup_requires_coordinates [] (fun s => s) "id1" ⟨"u", "g", "p", "b", "i", 0, 0⟩
    ⟨some "u", some "g", some "p", some "b", some "i", none, some 0⟩ (Or.inl rfl)

end Boba
